import Mathlib

/-!
Verification of the user-component registry, blueprint build pipeline and
generated-code fragments of the pavex compiler, as found under
`libs/pavexc/src/compiler/analyses/user_components/`,
`libs/pavexc/src/compiler/codegen/mod.rs` and the generated application in
`libs/ui_tests/error_observers/error_observers_can_depend_on_fallible_singletons/expectations/app.rs`.

The Rust data structures are shallowly embedded: hash maps become association
lists over `Nat` keys, arenas become lists indexed by position, fallible code
returns `Except`, and external collaborators (blueprint replay, path parsing,
rustdoc bootstrap, router compilation, path resolution) are passed into
`UserComponentDb.build` as explicit function parameters, mirroring the
`&mut`/by-reference collaborator arguments of the Rust function.
-/

/-- Identifier of an interned `UserComponent` (`la_arena::Idx<UserComponent>`),
modelled as the positional index in the arena. -/
abbrev UserComponentId := Nat

/-- Identifier of interned `RawIdentifiers` (`la_arena::Idx<RawIdentifiers>`). -/
abbrev RawIdentifierId := Nat

/-- Identifier of interned `AnnotationIdentifiers` (`la_arena::Idx<AnnotationIdentifiers>`). -/
abbrev AnnotationId := Nat

/-- Registration location (`pavex_bp_schema::Location`). Opaque to the core
(spec §3: "registration location (for diagnostics, opaque to the core)"),
modelled as an abstract token. -/
abbrev Location := Nat

/-- A package identifier (`guppy::PackageId`), opaque token. -/
abbrev PackageId := Nat

/-- A blueprint (`pavex_bp_schema::Blueprint`): opaque token, consumed only by
the external `process_blueprint` collaborator. -/
abbrev Blueprint := Nat

/-- The scope graph produced by blueprint replay. Its internals are outside the
sources under verification; opaque token. -/
abbrev ScopeGraph := Nat

/-- The compiled router produced by `Router::new`. Its internals are outside the
sources under verification; opaque token. -/
abbrev RouterTok := Nat

/-- A resolved import path (`crate::language::ResolvedPath`), opaque token. -/
abbrev ResolvedPath := Nat

/-- A parsed source file (`diagnostic::ParsedSourceFile`), opaque token. -/
abbrev SourceFile := Nat

/-- Scope identifier. `ScopeId::ROOT` is the root scope. -/
structure ScopeId where
  id : Nat
deriving DecidableEq, Repr

/-- The root scope (`ScopeId::ROOT`). -/
def ScopeId.ROOT : ScopeId := ⟨0⟩

/-- Raw callable identifiers registered via the `f!` macro
(`pavex_bp_schema::RawIdentifiers`): we keep the `import_path` field used by
`identifiers.rs`. -/
structure RawIdentifiers where
  import_path : String
deriving DecidableEq, Repr

instance : Inhabited RawIdentifiers := ⟨⟨""⟩⟩

/-- From `source.rs`: the blueprint-side source of a component registration. -/
structure BlueprintSource where
  identifiers_id : RawIdentifierId
  scope_id : ScopeId
deriving DecidableEq, Repr

/-- From `source.rs`: user components come from two sources — direct blueprint
registration, or implicit registration of an annotated component. Annotated
components carry no `ScopeId` since they are always implicitly registered at
the root scope. The `Annotation` variant of the Rust enum is rendered as
`annotationId` here. -/
inductive UserComponentSource where
  | blueprint (source : BlueprintSource)
  | annotationId (id : AnnotationId)
deriving DecidableEq, Repr

/-- Path pattern and method guard of a route (`router_key.rs` is not under the
sources provided; modelled from the spec §3: "(HTTP method set, path pattern,
optional domain)"). Its contents are never inspected by the verified code. -/
structure RouterKey where
  path : String
  method_guard : List String
  domain : Option String
deriving DecidableEq, Repr

/-- From `component.rs`: a component registered by a user either via a macro
annotation or directly against their `Blueprint`. -/
inductive UserComponent where
  | RequestHandler (source : BlueprintSource) (router_key : RouterKey)
  | Fallback (source : BlueprintSource)
  | ErrorHandler (source : BlueprintSource) (fallible_id : UserComponentId)
  | Constructor (source : UserComponentSource)
  | PrebuiltType (source : BlueprintSource)
  | ConfigType (source : BlueprintSource) (key : String)
  | WrappingMiddleware (source : BlueprintSource)
  | PostProcessingMiddleware (source : BlueprintSource)
  | PreProcessingMiddleware (source : BlueprintSource)
  | ErrorObserver (source : BlueprintSource)
deriving DecidableEq, Repr

/-- The tag type returned by `UserComponent::kind` (`diagnostic::ComponentKind`,
whose defining file `diagnostic/kind.rs` is not under the sources provided; the
variant set is pinned exactly by the exhaustive, wildcard-free `match` on
`component.kind()` in `identifiers.rs`, which lists these nine variants and no
`Fallback` variant). -/
inductive ComponentKind where
  | RequestHandler
  | ErrorHandler
  | Constructor
  | PrebuiltType
  | ConfigType
  | WrappingMiddleware
  | PostProcessingMiddleware
  | PreProcessingMiddleware
  | ErrorObserver
deriving DecidableEq, Repr

/-- From `component.rs`: the blueprint source for this user component; `none`
for annotated components. -/
def UserComponent.bp_source : UserComponent → Option BlueprintSource
  | .RequestHandler source _ => some source
  | .Fallback source => some source
  | .ErrorHandler source _ => some source
  | .PrebuiltType source => some source
  | .ConfigType source _ => some source
  | .WrappingMiddleware source => some source
  | .PostProcessingMiddleware source => some source
  | .PreProcessingMiddleware source => some source
  | .Constructor (.blueprint source) => some source
  | .ErrorObserver source => some source
  | .Constructor (.annotationId _) => none

/-- From `component.rs`: the `ScopeId` of the scope this component is
associated with; annotated components fall back to `ScopeId::ROOT`. -/
def UserComponent.scope_id (c : UserComponent) : ScopeId :=
  match c.bp_source with
  | some source => source.scope_id
  | none => ScopeId.ROOT

/-- From `component.rs`: the tag for the "variant" of this `UserComponent`.
Note that the source maps `Fallback` to `ComponentKind::RequestHandler`. -/
def UserComponent.kind : UserComponent → ComponentKind
  | .RequestHandler _ _ => ComponentKind.RequestHandler
  | .ErrorHandler _ _ => ComponentKind.ErrorHandler
  | .Constructor _ => ComponentKind.Constructor
  | .PrebuiltType _ => ComponentKind.PrebuiltType
  | .ConfigType _ _ => ComponentKind.ConfigType
  | .WrappingMiddleware _ => ComponentKind.WrappingMiddleware
  | .Fallback _ => ComponentKind.RequestHandler
  | .ErrorObserver _ => ComponentKind.ErrorObserver
  | .PostProcessingMiddleware _ => ComponentKind.PostProcessingMiddleware
  | .PreProcessingMiddleware _ => ComponentKind.PreProcessingMiddleware

/-- Discriminator for the ten `UserComponent` variants themselves (the
"component kinds" in the sense of the spec's data model §3, where `Fallback`
is listed as a kind of its own). -/
def UserComponent.ctorIdx : UserComponent → Nat
  | .RequestHandler _ _ => 0
  | .Fallback _ => 1
  | .ErrorHandler _ _ => 2
  | .Constructor _ => 3
  | .PrebuiltType _ => 4
  | .ConfigType _ _ => 5
  | .WrappingMiddleware _ => 6
  | .PostProcessingMiddleware _ => 7
  | .PreProcessingMiddleware _ => 8
  | .ErrorObserver _ => 9

/-- True exactly for the two route-terminal variants (`RequestHandler` and
`Fallback`), which `UserComponent.kind` maps to the same tag. -/
def UserComponent.isRouteTerminal : UserComponent → Bool
  | .RequestHandler _ _ => true
  | .Fallback _ => true
  | _ => false

/-- True exactly for the `Fallback` variant. -/
def UserComponent.isFallback : UserComponent → Bool
  | .Fallback _ => true
  | _ => false

/-- True exactly for the three "constructible" variants — `Constructor`,
`PrebuiltType` and `ConfigType` — i.e. the variants matched by the
`Constructor { .. } | PrebuiltType { .. }` and `ConfigType { .. }` arms of
`check_invariants` and by the `constructors`/`prebuilt_types`/`config_types`
iterators of `db.rs`. -/
def UserComponent.isConstructible : UserComponent → Bool
  | .Constructor _ => true
  | .PrebuiltType _ => true
  | .ConfigType _ _ => true
  | _ => false

/-- True exactly for the `ConfigType` variant. -/
def UserComponent.isConfig : UserComponent → Bool
  | .ConfigType _ _ => true
  | _ => false

/-- A convenient concrete blueprint source used by counterexamples. -/
def bpSource0 : BlueprintSource := ⟨0, ScopeId.ROOT⟩

/-- A convenient concrete router key used by counterexamples. -/
def routerKey0 : RouterKey := ⟨"/home", ["GET"], none⟩

/-- Modelled from the spec: the arena-backed interner
(`crate::compiler::interner::Interner`, whose defining file is not under the
sources provided). Per spec §4.1 it "interns every declared component with a
unique id (no deduplication of identical declarations — each registration is a
distinct id)"; ids are positional arena indices (`la_arena::Idx`), so the
interner is a grow-only list and `intern` appends. -/
structure Interner (T : Type) where
  items : List T
deriving DecidableEq, Repr

/-- The empty interner (`Interner::new`). -/
def Interner.new (T : Type) : Interner T := ⟨[]⟩

/-- Intern a value: it is appended to the arena and its fresh positional id is
returned. Identical values interned twice receive two distinct ids. -/
def Interner.intern (i : Interner T) (t : T) : Interner T × Nat :=
  (⟨i.items ++ [t]⟩, i.items.length)

/-- Look up the value interned at `id` (the arena's `Index` impl). -/
def Interner.get? (i : Interner T) (id : Nat) : Option T :=
  i.items.get? id

/-- Iterate over (id, value) pairs in id order (`Interner::iter`). -/
def Interner.iterIdx (i : Interner T) : List (Nat × T) :=
  i.items.enum

/-- One interning step of `internAll`: intern the component and record its id. -/
def internStep (acc : Interner UserComponent × List UserComponentId) (c : UserComponent) :
    Interner UserComponent × List UserComponentId :=
  ((acc.1.intern c).1, acc.2 ++ [(acc.1.intern c).2])

/-- Intern a whole list of values in order, returning the final interner and
the list of ids assigned, one per registration. -/
def internAll (cs : List UserComponent) : Interner UserComponent × List UserComponentId :=
  cs.foldl internStep (Interner.new UserComponent, [])

/-- From `pavexc_attr_parser/src/model.rs` (and `pavex_bp_schema`): the
lifecycle of a component. -/
inductive Lifecycle where
  | Singleton
  | RequestScoped
  | Transient
deriving DecidableEq, Repr

/-- From `pavexc_attr_parser/src/model.rs` (and `pavex_bp_schema`): whether a
produced value may be duplicated or must have a single owner. -/
inductive CloningStrategy where
  | CloneIfNecessary
  | NeverClone
deriving DecidableEq, Repr

/-- Modelled from the spec: the default-value strategy of a configuration type
(§3: "every ConfigValue has a default-value strategy"); its defining file
(`compiler/component`) is not under the sources provided. -/
inductive DefaultStrategy where
  | required
  | defaultIfMissing
deriving DecidableEq, Repr

/-- A lint identifier (`pavex_bp_schema::Lint`), opaque token. -/
abbrev Lint := Nat

/-- A lint override setting (`pavex_bp_schema::LintSetting`), opaque token. -/
abbrev LintSetting := Nat

/-- A domain guard (`compiler::analyses::domain::DomainGuard`), opaque token. -/
abbrev DomainGuard := Nat

/-- Lookup in an association-list rendering of a `HashMap` with `Nat` keys. -/
def lookupEntry : List (Nat × α) → Nat → Option α
  | [], _ => none
  | (k, v) :: rest, key => if key = k then some v else lookupEntry rest key

/-- Insertion in an association-list rendering of a `HashMap`. -/
def insertEntry (m : List (Nat × α)) (k : Nat) (v : α) : List (Nat × α) :=
  (k, v) :: m

/-- From `auxiliary.rs`: the data tracked while collecting and processing all
user-registered components. Hash maps become association lists; the field
`fallback_id2path_prefix` of the source is rendered as
`fallback_id2nesting_path` (the concatenated path prefixes of the blueprints a
fallback was nested under). -/
structure AuxiliaryData where
  component_interner : Interner UserComponent
  identifiers_interner : Interner RawIdentifiers
  id2locations : List (UserComponentId × Location)
  id2lifecycle : List (UserComponentId × Lifecycle)
  id2lints : List (UserComponentId × List (Lint × LintSetting))
  id2cloning_strategy : List (UserComponentId × CloningStrategy)
  config_id2default_strategy : List (UserComponentId × DefaultStrategy)
  handler_id2middleware_ids : List (UserComponentId × List UserComponentId)
  handler_id2error_observer_ids : List (UserComponentId × List UserComponentId)
  fallback_id2nesting_path : List (UserComponentId × Option String)
  fallback_id2domain_guard : List (UserComponentId × Option DomainGuard)
  domain_guard2locations : List (DomainGuard × List Location)
deriving DecidableEq, Repr

/-- `AuxiliaryData::default()`: every collection empty. -/
def AuxiliaryData.empty : AuxiliaryData :=
  ⟨Interner.new _, Interner.new _, [], [], [], [], [], [], [], [], [], []⟩

/-- From `auxiliary.rs`: iterate over all user components (and their ids)
discovered up to this point. -/
def AuxiliaryData.iter (aux : AuxiliaryData) : List (UserComponentId × UserComponent) :=
  aux.component_interner.iterIdx

/-- From `auxiliary.rs` (`AuxiliaryData::check_invariants`, compiled only under
`#[cfg(debug_assertions)]`): validate that all internal invariants are
satisfied. Each `assert!` of the source becomes a boolean conjunct; the
function returns `true` exactly when no assertion would fire. -/
def AuxiliaryData.check_invariants (aux : AuxiliaryData) : Bool :=
  aux.iter.all fun (idc : UserComponentId × UserComponent) =>
    (lookupEntry aux.id2lifecycle idc.1).isSome &&
    (lookupEntry aux.id2locations idc.1).isSome &&
    match idc.2 with
    | .Constructor _ | .PrebuiltType _ =>
        (lookupEntry aux.id2cloning_strategy idc.1).isSome
    | .ConfigType _ _ =>
        (lookupEntry aux.id2cloning_strategy idc.1).isSome &&
        (lookupEntry aux.config_id2default_strategy idc.1).isSome
    | .RequestHandler _ _ =>
        (lookupEntry aux.handler_id2middleware_ids idc.1).isSome &&
        (lookupEntry aux.handler_id2error_observer_ids idc.1).isSome
    | .Fallback _ =>
        (lookupEntry aux.handler_id2middleware_ids idc.1).isSome &&
        (lookupEntry aux.handler_id2error_observer_ids idc.1).isSome &&
        (lookupEntry aux.fallback_id2nesting_path idc.1).isSome &&
        (lookupEntry aux.fallback_id2domain_guard idc.1).isSome
    | .ErrorHandler _ _ | .WrappingMiddleware _ | .PostProcessingMiddleware _
    | .PreProcessingMiddleware _ | .ErrorObserver _ => true

/-- The property `check_invariants` decides, spelled out as in the claim: every
interned component has a lifecycle and a registration location; every
`Constructor`, `PrebuiltType` (prebuilt value) and `ConfigType` (config value)
has a cloning strategy; every `ConfigType` has a default strategy; every
`RequestHandler` and `Fallback` has a middleware-id list and an
error-observer-id list; every `Fallback` has a path-prefix entry and a
domain-guard entry. -/
def RequiredEntriesPresent (aux : AuxiliaryData) : Prop :=
  ∀ id c, aux.component_interner.get? id = some c →
    (lookupEntry aux.id2lifecycle id).isSome = true ∧
    (lookupEntry aux.id2locations id).isSome = true ∧
    (c.isConstructible = true →
      (lookupEntry aux.id2cloning_strategy id).isSome = true) ∧
    (c.isConfig = true →
      (lookupEntry aux.config_id2default_strategy id).isSome = true) ∧
    (c.isRouteTerminal = true →
      (lookupEntry aux.handler_id2middleware_ids id).isSome = true ∧
      (lookupEntry aux.handler_id2error_observer_ids id).isSome = true) ∧
    (c.isFallback = true →
      (lookupEntry aux.fallback_id2nesting_path id).isSome = true ∧
      (lookupEntry aux.fallback_id2domain_guard id).isSome = true)

/-- Modelled from the spec: one component-registration call of the input
surface (§6: "a tree of registration calls describing … components (kind, type
signature, lifecycle, optional cloning strategy, …, source location), and
routes …, replayed in registration order"), flattened to the per-component
effect that `process_blueprint` (in `blueprint.rs`, not under the sources
provided) applies to `AuxiliaryData` — each call interns one component and
fills the side maps required for its kind (§4.1). -/
inductive BlueprintRegistration where
  | constructor (source : UserComponentSource) (lifecycle : Lifecycle)
      (cloning : CloningStrategy) (loc : Location)
  | prebuilt (source : BlueprintSource) (lifecycle : Lifecycle)
      (cloning : CloningStrategy) (loc : Location)
  | config (source : BlueprintSource) (key : String) (lifecycle : Lifecycle)
      (cloning : CloningStrategy) (defaultStrategy : DefaultStrategy) (loc : Location)
  | route (source : BlueprintSource) (router_key : RouterKey) (lifecycle : Lifecycle)
      (middlewares : List UserComponentId) (observers : List UserComponentId) (loc : Location)
  | fallback (source : BlueprintSource) (lifecycle : Lifecycle)
      (middlewares : List UserComponentId) (observers : List UserComponentId)
      (nestingPath : Option String) (guard : Option DomainGuard) (loc : Location)
  | errorHandler (source : BlueprintSource) (fallible_id : UserComponentId)
      (lifecycle : Lifecycle) (loc : Location)
  | wrapping (source : BlueprintSource) (lifecycle : Lifecycle) (loc : Location)
  | postProcess (source : BlueprintSource) (lifecycle : Lifecycle) (loc : Location)
  | preProcess (source : BlueprintSource) (lifecycle : Lifecycle) (loc : Location)
  | errorObserver (source : BlueprintSource) (lifecycle : Lifecycle) (loc : Location)
deriving DecidableEq, Repr

/-- The `UserComponent` a registration interns. -/
def BlueprintRegistration.component : BlueprintRegistration → UserComponent
  | .constructor source _ _ _ => .Constructor source
  | .prebuilt source _ _ _ => .PrebuiltType source
  | .config source key _ _ _ _ => .ConfigType source key
  | .route source rk _ _ _ _ => .RequestHandler source rk
  | .fallback source _ _ _ _ _ _ => .Fallback source
  | .errorHandler source fid _ _ => .ErrorHandler source fid
  | .wrapping source _ _ => .WrappingMiddleware source
  | .postProcess source _ _ => .PostProcessingMiddleware source
  | .preProcess source _ _ => .PreProcessingMiddleware source
  | .errorObserver source _ _ => .ErrorObserver source

/-- The lifecycle a registration records. -/
def BlueprintRegistration.lifecycle : BlueprintRegistration → Lifecycle
  | .constructor _ lc _ _ => lc
  | .prebuilt _ lc _ _ => lc
  | .config _ _ lc _ _ _ => lc
  | .route _ _ lc _ _ _ => lc
  | .fallback _ lc _ _ _ _ _ => lc
  | .errorHandler _ _ lc _ => lc
  | .wrapping _ lc _ => lc
  | .postProcess _ lc _ => lc
  | .preProcess _ lc _ => lc
  | .errorObserver _ lc _ => lc

/-- The registration location a registration records. -/
def BlueprintRegistration.location : BlueprintRegistration → Location
  | .constructor _ _ _ loc => loc
  | .prebuilt _ _ _ loc => loc
  | .config _ _ _ _ _ loc => loc
  | .route _ _ _ _ _ loc => loc
  | .fallback _ _ _ _ _ _ loc => loc
  | .errorHandler _ _ _ loc => loc
  | .wrapping _ _ loc => loc
  | .postProcess _ _ loc => loc
  | .preProcess _ _ loc => loc
  | .errorObserver _ _ loc => loc

/-- The kind-dependent side-map entries one registration call fills:
cloning strategy for constructors/prebuilt/config, default strategy for
config, middleware and error-observer chains for request handlers and
fallbacks, nesting path prefix and domain guard for fallbacks. -/
structure SideEntries where
  cloning : Option CloningStrategy
  defaultStrategy : Option DefaultStrategy
  middlewares : Option (List UserComponentId)
  observers : Option (List UserComponentId)
  nestingPath : Option (Option String)
  guard : Option (Option DomainGuard)
deriving DecidableEq, Repr

/-- The side-map entries recorded by each registration kind. -/
def BlueprintRegistration.sideEntries : BlueprintRegistration → SideEntries
  | .constructor _ _ cs _ => ⟨some cs, none, none, none, none, none⟩
  | .prebuilt _ _ cs _ => ⟨some cs, none, none, none, none, none⟩
  | .config _ _ _ cs ds _ => ⟨some cs, some ds, none, none, none, none⟩
  | .route _ _ _ mws obs _ => ⟨none, none, some mws, some obs, none, none⟩
  | .fallback _ _ mws obs nesting guard _ =>
      ⟨none, none, some mws, some obs, some nesting, some guard⟩
  | .errorHandler _ _ _ _ => ⟨none, none, none, none, none, none⟩
  | .wrapping _ _ _ => ⟨none, none, none, none, none, none⟩
  | .postProcess _ _ _ => ⟨none, none, none, none, none, none⟩
  | .preProcess _ _ _ => ⟨none, none, none, none, none, none⟩
  | .errorObserver _ _ _ => ⟨none, none, none, none, none, none⟩

/-- Insert into an association list only when an entry is supplied. -/
def insertOpt (m : List (Nat × α)) (k : Nat) : Option α → List (Nat × α)
  | some v => insertEntry m k v
  | none => m

/-- Modelled from the spec: replay one registration call into `AuxiliaryData`
(the per-component effect of `process_blueprint`, in `blueprint.rs`, not under
the sources provided): intern the component at a fresh id, record its location
and lifecycle unconditionally, and fill exactly the side maps its kind
carries. -/
def AuxiliaryData.register (aux : AuxiliaryData) (r : BlueprintRegistration) : AuxiliaryData :=
  let p := aux.component_interner.intern r.component
  { aux with
    component_interner := p.1
    id2locations := insertEntry aux.id2locations p.2 r.location
    id2lifecycle := insertEntry aux.id2lifecycle p.2 r.lifecycle
    id2cloning_strategy := insertOpt aux.id2cloning_strategy p.2 r.sideEntries.cloning
    config_id2default_strategy :=
      insertOpt aux.config_id2default_strategy p.2 r.sideEntries.defaultStrategy
    handler_id2middleware_ids :=
      insertOpt aux.handler_id2middleware_ids p.2 r.sideEntries.middlewares
    handler_id2error_observer_ids :=
      insertOpt aux.handler_id2error_observer_ids p.2 r.sideEntries.observers
    fallback_id2nesting_path :=
      insertOpt aux.fallback_id2nesting_path p.2 r.sideEntries.nestingPath
    fallback_id2domain_guard :=
      insertOpt aux.fallback_id2domain_guard p.2 r.sideEntries.guard }

/-- Replay a whole list of registration calls, in registration order, starting
from the empty `AuxiliaryData` — the modelled `process_blueprint`. -/
def processRegistrations (regs : List BlueprintRegistration) : AuxiliaryData :=
  regs.foldl AuxiliaryData.register AuxiliaryData.empty

/-- Well-formedness of the registry maintained by the registration replay: the
required side-map entries are present for every interned component, and the
cloning-strategy map has an entry exactly for the constructible components
(constructors, prebuilt types, config types). -/
def RegistryWF (aux : AuxiliaryData) : Prop :=
  RequiredEntriesPresent aux ∧
  ∀ id, (lookupEntry aux.id2cloning_strategy id).isSome = true ↔
    ∃ c, aux.component_interner.get? id = some c ∧ c.isConstructible = true

/-- From `language` (file not under the sources provided; the two variants are
pinned by the exhaustive matches in `identifiers.rs`): why parsing a raw
path of imported identifiers failed. -/
inductive ParseError where
  | InvalidPath (raw_identifiers : RawIdentifiers)
  | PathMustBeAbsolute (raw_identifiers : RawIdentifiers)
deriving DecidableEq, Repr

/-- From `language` (used in `identifiers.rs`): what a raw path must resolve
to. -/
inductive PathKind where
  | Type
  | Callable
deriving DecidableEq, Repr

/-- A diagnostic accumulated in the sink. `parseFailure` is the
`CompilerDiagnostic` built by `capture_diagnostics` in `identifiers.rs`;
`sourceReadError` is the error `DiagnosticSink::source` pushes when reading
the registration source file fails; `docsComputationError` is the error pushed
by `precompute_crate_docs`; `collaborator` stands for any diagnostic pushed by
an external collaborator (blueprint replay, router compilation, path
resolution). -/
inductive Diagnostic where
  | parseFailure (id : UserComponentId) (e : ParseError)
  | sourceReadError (loc : Location)
  | docsComputationError
  | collaborator (tag : Nat)
deriving DecidableEq, Repr

/-- From `diagnostic/sink.rs`: an accumulator for diagnostics. The sink's API
is push-only: no method removes a diagnostic. -/
structure DiagnosticSink where
  diagnostics : List Diagnostic
deriving DecidableEq, Repr

/-- `DiagnosticSink::new` (the package graph is only used for source lookup,
which is delegated to the `read_source` collaborator here). -/
def DiagnosticSink.empty : DiagnosticSink := ⟨[]⟩

/-- From `diagnostic/sink.rs`: push a new diagnostic into the sink. -/
def DiagnosticSink.push (s : DiagnosticSink) (d : Diagnostic) : DiagnosticSink :=
  ⟨s.diagnostics ++ [d]⟩

/-- Push a batch of diagnostics (a collaborator's pushes, in order). -/
def DiagnosticSink.pushAll (s : DiagnosticSink) (ds : List Diagnostic) : DiagnosticSink :=
  ⟨s.diagnostics ++ ds⟩

/-- From `diagnostic/sink.rs`: check if the sink is empty. -/
def DiagnosticSink.is_empty (s : DiagnosticSink) : Bool :=
  s.diagnostics.isEmpty

/-- From `diagnostic/sink.rs`: the number of diagnostics accumulated so far. -/
def DiagnosticSink.len (s : DiagnosticSink) : Nat :=
  s.diagnostics.length

/-- The external collaborators `UserComponentDb::build` relies on, passed as
explicit functions: blueprint replay (`process_blueprint`, in `blueprint.rs`),
raw-path parsing (`ResolvedPath::parse`), source-file reading (used by
`DiagnosticSink::source`), router compilation (`Router::new`), package-id
collection from resolved paths, the annotation-source package set, the batched
rustdoc computation (`CrateCollection::bootstrap_collection`), and path
resolution (`resolve_paths`). Collaborators interact with the sink push-only:
each returns the list of diagnostics it appends. -/
structure BuildCollaborators where
  process_blueprint : Blueprint → AuxiliaryData × ScopeGraph × List Diagnostic
  parse_path : RawIdentifiers → PathKind → Except ParseError ResolvedPath
  read_source : Location → Option SourceFile
  router_new : AuxiliaryData → ScopeGraph → Except Unit RouterTok × List Diagnostic
  collect_package_ids : ResolvedPath → List PackageId
  annotation_sources : List PackageId
  bootstrap_collection : List PackageId → Except Unit Unit
  resolve_paths : List (UserComponentId × ResolvedPath) → AuxiliaryData → List Diagnostic

/-- From `diagnostic/sink.rs` (`DiagnosticSink::source`): read and parse the
source file containing the given location; on failure the read error itself is
pushed into the sink and `none` is returned. -/
def DiagnosticSink.source (read_source : Location → Option SourceFile)
    (s : DiagnosticSink) (location : Location) : Option SourceFile × DiagnosticSink :=
  match read_source location with
  | some f => (some f, s)
  | none => (none, s.push (.sourceReadError location))

/-- From `identifiers.rs` (`capture_diagnostics`): look up the failing
component's registration location, try to read its source file (pushing a read
error into the sink if that fails), then push the parse-failure diagnostic —
one per failing component. -/
def capture_diagnostics (c : BuildCollaborators) (e : ParseError) (id : UserComponentId)
    (db : AuxiliaryData) (sink : DiagnosticSink) : DiagnosticSink :=
  let location := (lookupEntry db.id2locations id).getD 0
  let p := DiagnosticSink.source c.read_source sink location
  p.2.push (.parseFailure id e)

/-- From `identifiers.rs`: the `PathKind` expected for each component kind
(the exhaustive match in `resolve_raw_identifiers`). -/
def pathKindForComponent : ComponentKind → PathKind
  | .PrebuiltType => PathKind.Type
  | .ConfigType => PathKind.Type
  | .RequestHandler => PathKind.Callable
  | .Constructor => PathKind.Callable
  | .ErrorHandler => PathKind.Callable
  | .WrappingMiddleware => PathKind.Callable
  | .PostProcessingMiddleware => PathKind.Callable
  | .PreProcessingMiddleware => PathKind.Callable
  | .ErrorObserver => PathKind.Callable

/-- The raw identifiers interned at the given id (the
`db.identifiers_interner[bp_source.identifiers_id]` indexing of
`identifiers.rs`; out-of-range indexing, which panics in Rust, falls back to
the default value here and never occurs on well-formed data). -/
def internedIdentifiers (db : AuxiliaryData) (iid : RawIdentifierId) : RawIdentifiers :=
  db.identifiers_interner.items.getD iid default

/-- One iteration of the loop in `resolve_raw_identifiers`: skip components
without a blueprint source; otherwise parse the interned raw identifiers with
the kind-appropriate `PathKind`, recording the resolved path on success and
capturing a diagnostic on failure — then continue with the next component. -/
def resolveStep (c : BuildCollaborators) (db : AuxiliaryData)
    (acc : List (UserComponentId × ResolvedPath) × DiagnosticSink)
    (idc : UserComponentId × UserComponent) :
    List (UserComponentId × ResolvedPath) × DiagnosticSink :=
  match idc.2.bp_source with
  | none => acc
  | some bp_source =>
      match c.parse_path (internedIdentifiers db bp_source.identifiers_id)
          (pathKindForComponent idc.2.kind) with
      | .ok path => (acc.1 ++ [(idc.1, path)], acc.2)
      | .error e => (acc.1, capture_diagnostics c e idc.1 db acc.2)

/-- From `identifiers.rs` (`resolve_raw_identifiers`): map every
blueprint-sourced component id to its resolved path, pushing one diagnostic
per component whose raw identifiers fail to parse and continuing with the
remaining components. -/
def resolve_raw_identifiers (c : BuildCollaborators) (db : AuxiliaryData)
    (sink : DiagnosticSink) : List (UserComponentId × ResolvedPath) × DiagnosticSink :=
  db.iter.foldl (resolveStep c db) ([], sink)

/-- Insert preserving first-occurrence order (the `IndexSet` discipline). -/
def insertUnique (s : List PackageId) (x : PackageId) : List PackageId :=
  if x ∈ s then s else s ++ [x]

/-- From `db.rs` (`precompute_crate_docs`): collect the package ids reachable
from all resolved paths, extend them with the annotation-source packages, and
issue one batched rustdoc computation; on failure push a single diagnostic. -/
def precompute_crate_docs (c : BuildCollaborators) (resolved_paths : List ResolvedPath)
    (sink : DiagnosticSink) : DiagnosticSink :=
  let collected := resolved_paths.foldl (fun acc p => acc ++ c.collect_package_ids p) []
  let package_ids := (collected ++ c.annotation_sources).foldl insertUnique []
  match c.bootstrap_collection package_ids with
  | .ok _ => sink
  | .error _ => sink.push .docsComputationError

/-- From `annotations.rs` (`process_annotations`): in the sources provided its
body is empty ("Process annotations here"), so it leaves the auxiliary data
unchanged and pushes no diagnostic. -/
def process_annotations (aux : AuxiliaryData) : AuxiliaryData := aux

/-- From `annotations.rs`: the identifiers of an annotated item in the JSON
documentation. -/
structure AnnotationIdentifiers where
  package_id : PackageId
  item_id : Nat
deriving DecidableEq, Repr

/-- From `db.rs`: the database of all user components registered against the
application blueprint, with the side maps retained after the build (the
fallback maps and the identifiers interner are dropped, as in the
destructuring of `AuxiliaryData` in `build`). -/
structure UserComponentDb where
  component_interner : Interner UserComponent
  annotation_interner : Interner AnnotationIdentifiers
  id2locations : List (UserComponentId × Location)
  id2lifecycle : List (UserComponentId × Lifecycle)
  id2lints : List (UserComponentId × List (Lint × LintSetting))
  id2cloning_strategy : List (UserComponentId × CloningStrategy)
  config_id2default_strategy : List (UserComponentId × DefaultStrategy)
  handler_id2middleware_ids : List (UserComponentId × List UserComponentId)
  handler_id2error_observer_ids : List (UserComponentId × List UserComponentId)
  scope_graph : ScopeGraph
deriving DecidableEq, Repr

/-- From `db.rs` (`UserComponentDb::build`): process a blueprint and return
the router and the component database, or `Err(())` — with the
`exit_on_errors!` checkpoints after router construction, after the batched
docs computation, and after path resolution and annotation processing, each
aborting when the sink is non-empty. -/
def UserComponentDb.build (c : BuildCollaborators) (bp : Blueprint)
    (sink₀ : DiagnosticSink) : Except Unit (RouterTok × UserComponentDb) × DiagnosticSink :=
  let pb := c.process_blueprint bp
  let aux := pb.1
  let scope_graph := pb.2.1
  let sink₁ := sink₀.pushAll pb.2.2
  let rp := resolve_raw_identifiers c aux sink₁
  let id2resolved_path := rp.1
  let sink₂ := rp.2
  let rn := c.router_new aux scope_graph
  let sink₃ := sink₂.pushAll rn.2
  match rn.1 with
  | .error _ => (.error (), sink₃)
  | .ok router =>
    if sink₃.is_empty then
      let sink₄ := precompute_crate_docs c (id2resolved_path.map (·.2)) sink₃
      if sink₄.is_empty then
        let sink₅ := sink₄.pushAll (c.resolve_paths id2resolved_path aux)
        let aux' := process_annotations aux
        if sink₅.is_empty then
          (.ok (router,
            { component_interner := aux'.component_interner
              annotation_interner := Interner.new _
              id2locations := aux'.id2locations
              id2lifecycle := aux'.id2lifecycle
              id2lints := aux'.id2lints
              id2cloning_strategy := aux'.id2cloning_strategy
              config_id2default_strategy := aux'.config_id2default_strategy
              handler_id2middleware_ids := aux'.handler_id2middleware_ids
              handler_id2error_observer_ids := aux'.handler_id2error_observer_ids
              scope_graph := scope_graph }), sink₅)
        else (.error (), sink₅)
      else (.error (), sink₄)
    else (.error (), sink₃)

/-- From `db.rs` (`UserComponentDb::get_cloning_strategy`): `Some(..)` for the
ids carrying a cloning strategy, `None` otherwise. -/
def UserComponentDb.get_cloning_strategy (db : UserComponentDb) (id : UserComponentId) :
    Option CloningStrategy :=
  lookupEntry db.id2cloning_strategy id

/-- From `db.rs` (`UserComponentDb::iter`): all components with their ids. -/
def UserComponentDb.iter (db : UserComponentDb) : List (UserComponentId × UserComponent) :=
  db.component_interner.iterIdx

/-- A collaborator set whose blueprint replay delivers an `AuxiliaryData`
violating the registry invariants: it interns one constructor but records no
lifecycle, no location and no cloning strategy for it. Every other
collaborator succeeds without diagnostics. -/
def breakingCollaborators : BuildCollaborators where
  process_blueprint := fun _ =>
    ({ AuxiliaryData.empty with
        component_interner := ⟨[UserComponent.Constructor (.annotationId 0)]⟩ }, 0, [])
  parse_path := fun _ _ => .ok 0
  read_source := fun _ => some 0
  router_new := fun _ _ => (.ok 0, [])
  collect_package_ids := fun _ => []
  annotation_sources := []
  bootstrap_collection := fun _ => .ok ()
  resolve_paths := fun _ _ => []

/-- The ids of the parse-failure diagnostics in a sink, in push order. -/
def parseFailureIds (sink : DiagnosticSink) : List UserComponentId :=
  sink.diagnostics.filterMap fun d =>
    match d with
    | .parseFailure id _ => some id
    | _ => none

/-- The ids of the blueprint-sourced components in `l` whose raw identifiers
fail to parse under the given collaborators, in id order. -/
def failingIds (c : BuildCollaborators) (db : AuxiliaryData)
    (l : List (UserComponentId × UserComponent)) : List UserComponentId :=
  l.filterMap fun idc =>
    match idc.2.bp_source with
    | none => none
    | some bp_source =>
        match c.parse_path (internedIdentifiers db bp_source.identifiers_id)
            (pathKindForComponent idc.2.kind) with
        | .ok _ => none
        | .error _ => some idc.1

/-- Registration replay used by the C2 witness: two blueprint-sourced
components (a request handler and a wrapping middleware). -/
def c2regs : List BlueprintRegistration :=
  [BlueprintRegistration.route bpSource0 routerKey0 .RequestScoped [] [] 0,
   BlueprintRegistration.wrapping bpSource0 .Transient 1]

/-- Collaborators for the C2 witness: both registered components have invalid
identifier paths (`parse_path` always fails). -/
def c2collabs : BuildCollaborators where
  process_blueprint := fun _ => (processRegistrations c2regs, 0, [])
  parse_path := fun ri _ => .error (.InvalidPath ri)
  read_source := fun _ => some 0
  router_new := fun _ _ => (.ok 0, [])
  collect_package_ids := fun _ => []
  annotation_sources := []
  bootstrap_collection := fun _ => .ok ()
  resolve_paths := fun _ _ => []

/-- Registration replay used by the C6 and C9 witnesses: a constructor, a
config type, a route and an error observer. -/
def okRegs : List BlueprintRegistration :=
  [BlueprintRegistration.constructor (.annotationId 0) .Singleton .NeverClone 0,
   BlueprintRegistration.config bpSource0 "key" .Singleton .CloneIfNecessary
     .defaultIfMissing 1,
   BlueprintRegistration.route bpSource0 routerKey0 .RequestScoped [] [] 2,
   BlueprintRegistration.errorObserver bpSource0 .Transient 3]

/-- Collaborators whose build succeeds on `okRegs`. -/
def okCollaborators : BuildCollaborators where
  process_blueprint := fun _ => (processRegistrations okRegs, 0, [])
  parse_path := fun _ _ => .ok 0
  read_source := fun _ => some 0
  router_new := fun _ _ => (.ok 0, [])
  collect_package_ids := fun _ => []
  annotation_sources := []
  bootstrap_collection := fun _ => .ok ()
  resolve_paths := fun _ _ => []

/-- The database produced by the successful witness build. -/
def okDb : UserComponentDb :=
  match (UserComponentDb.build okCollaborators 0 DiagnosticSink.empty).1 with
  | .ok p => p.2
  | .error _ =>
      ⟨Interner.new _, Interner.new _, [], [], [], [], [], [], [], 0⟩

/-- The router produced by the successful witness build. -/
def okRouter : RouterTok :=
  match (UserComponentDb.build okCollaborators 0 DiagnosticSink.empty).1 with
  | .ok p => p.1
  | .error _ => 0

/-- The sink produced by the successful witness build. -/
def okSink : DiagnosticSink :=
  (UserComponentDb.build okCollaborators 0 DiagnosticSink.empty).2

/-- An HTTP method (`pavex::http::Method`), with the named verbs and a
catch-all for extension methods. -/
inductive Method where
  | GET
  | POST
  | PUT
  | DELETE
  | PATCH
  | HEAD
  | OPTIONS
  | other (name : String)
deriving DecidableEq, Repr

/-- The part of `pavex::request::RequestHead` the generated router inspects:
the method and the target path. -/
structure RequestHead where
  method : Method
  path : String
deriving DecidableEq, Repr

/-- From the generated `Router::router` in `app.rs`: the `matchit` route table
built with `router.insert("/home", 0u32)`. -/
def generatedRoutes : List (String × Nat) := [("/home", 0)]

/-- Path lookup in the route table (`matchit::Router::at`; with only literal
path patterns registered, as here, `matchit` matching is exact string
matching). -/
def matchit_at (routes : List (String × Nat)) (path : String) : Option Nat :=
  (routes.find? (fun r => r.1 == path)).map (·.2)

/-- Which pipeline entrypoint the generated `Router::route` awaits, with the
argument it is given: `route0` is the `GET /home` handler pipeline (passed the
application state), `route1` the fallback pipeline (passed the
`AllowedMethods` value built at the dispatch site), and `unreachableBranch`
the `unreachable!` arm for unknown route ids. -/
inductive Dispatch where
  | route0
  | route1 (allowed_methods : List Method)
  | unreachableBranch
deriving DecidableEq, Repr

/-- From the generated `Router::route` in `app.rs`: no path match dispatches
to the fallback with an empty `AllowedMethods`; a match on route id 0
(`/home`) dispatches to the handler on `GET` and otherwise to the fallback
with `AllowedMethods` built from `[GET]` — the methods registered for that
path; any other route id is unreachable. -/
def Router.route (head : RequestHead) : Dispatch :=
  match matchit_at generatedRoutes head.path with
  | none => .route1 []
  | some 0 =>
      match head.method with
      | .GET => .route0
      | _ => .route1 [.GET]
  | some _ => .unreachableBranch

/-- The set of methods actually registered for each path in this generated
application: only `GET /home` is registered. -/
def registeredMethods (path : String) : List Method :=
  if path == "/home" then [.GET] else []

/-- The singleton type `app::A`, opaque token. -/
abbrev AppA := Nat

/-- The request-scoped type `app::B`, opaque token. -/
abbrev AppB := Nat

/-- The error type of the fallible component `app::b`, opaque token. -/
abbrev BErr := Nat

/-- The error handler's response type (converted via `IntoResponse`), opaque
token. -/
abbrev EhResponse := Nat

/-- The request handler's response type (converted via `IntoResponse`), opaque
token. -/
abbrev HResponse := Nat

/-- `pavex::response::Response`, opaque token. -/
abbrev Response := Nat

/-- `pavex::Error`: the type-erased error wrapper handed to error observers
(`pavex::Error::new(v2)` in the generated code). -/
structure PavexError where
  inner : BErr
deriving DecidableEq, Repr

/-- `pavex::Error::new`. -/
def PavexError.new (e : BErr) : PavexError := ⟨e⟩

/-- The application components the generated `route_0::handler` invokes,
passed as explicit functions. The error observer is effectful: it transforms
an ambient effect state `σ` and returns nothing that the generated code
consumes (its Rust return value is discarded). -/
structure Route0Env (σ : Type) where
  b : AppA → Except BErr AppB
  error_handler : AppA → BErr → EhResponse
  error_observer : AppA → PavexError → σ → σ
  handler : AppB → HResponse
  into_response_eh : EhResponse → Response
  into_response_h : HResponse → Response

/-- From the generated `route_0::handler` in `app.rs`: invoke the fallible
component `app::b`; on success, run the request handler on its output; on
error, first invoke the registered error handler to produce the response
(`let v3 = app::error_handler(v0, &v2)`), then wrap the error
(`pavex::Error::new`) and invoke the registered error observer purely for its
side effects (`app::error_observer(v0, &v4);`, result discarded), and return
the error handler's response converted via `IntoResponse`. -/
def route_0.handler (env : Route0Env σ) (v0 : AppA) (s : σ) : Response × σ :=
  match env.b v0 with
  | .ok v2 => (env.into_response_h (env.handler v2), s)
  | .error v2 =>
      let v3 := env.error_handler v0 v2
      let v4 := PavexError.new v2
      let s' := env.error_observer v0 v4 s
      (env.into_response_eh v3, s')

/-- A concrete environment for the C3 witness: `app::b` fails with error 5,
the error handler returns `v0 + e`, and the observer logs the observed error
into the effect state. -/
def c3env : Route0Env (List Nat) where
  b := fun _ => .error 5
  error_handler := fun v0 e => v0 + e
  error_observer := fun _ err log => log ++ [err.inner]
  handler := fun b => b
  into_response_eh := fun r => r
  into_response_h := fun r => r

/-- A resolved Rust type (`crate::language::ResolvedType`), opaque token. -/
abbrev ResolvedTypeTok := Nat

/-- A variant of the generated error enum: its name and its
`#[error(transparent)]` payload type (the textual rendering via
`package_id2name` is omitted). -/
structure EnumVariant where
  name : String
  ty : ResolvedTypeTok
deriving DecidableEq, Repr

/-- The generated `ApplicationStateError` enum item (`syn::ItemEnum`),
reduced to its variant list. -/
structure ItemEnum where
  variants : List EnumVariant
deriving DecidableEq, Repr

/-- From `codegen/mod.rs` (`define_application_state_error`): returns `None`
— the enum is omitted entirely — when there are no error variants, and
otherwise an enum with exactly one variant per entry of `error_variants`
(one per fallible singleton constructor's error type), in order. -/
def define_application_state_error
    (error_types : List (String × ResolvedTypeTok)) : Option ItemEnum :=
  if error_types.isEmpty then none
  else some ⟨error_types.map fun nt => ⟨nt.1, nt.2⟩⟩

/-- The return type of the generated `build_application_state`: the signature
produced by call-graph codegen returns the plain state, and
`get_application_state_init` overrides it with
`Result<ApplicationState, ApplicationStateError>` when error variants exist. -/
inductive InitReturnType where
  | stateOnly
  | resultStateOrError
deriving DecidableEq, Repr

/-- From `codegen/mod.rs` (`get_application_state_init`): the output type of
`build_application_state` is rewritten to
`Result<crate::ApplicationState, crate::ApplicationStateError>` if and only
if the error-variant map is non-empty. -/
def get_application_state_init_output
    (error_variants : List (String × ResolvedTypeTok)) : InitReturnType :=
  if error_variants.isEmpty then .stateOnly else .resultStateOrError

/-- The error type `app::AnError` of the fallible singleton constructor
`app::a`, opaque token. -/
abbrev AnError := Nat

/-- From the generated `app.rs`: the application state with its single
singleton slot `s0: app::A`. -/
structure ApplicationState where
  s0 : AppA
deriving DecidableEq, Repr

/-- From the generated `app.rs`: the `ApplicationStateError` enum with exactly
one variant, `A(app::AnError)`, for the single fallible singleton
constructor. -/
inductive ApplicationStateError where
  | A (e : AnError)
deriving DecidableEq, Repr

/-- From the generated `build_application_state` in `app.rs`: run the fallible
singleton constructor `app::a` (its result passed as a parameter); on success
assemble the state, on failure wrap the error in the matching
`ApplicationStateError` variant and return `Err`. -/
def build_application_state (a_result : Except AnError AppA) :
    Except ApplicationStateError ApplicationState :=
  match a_result with
  | .ok v1 => .ok ⟨v1⟩
  | .error v1 => .error (.A v1)

/-- C7 counterexample: the claim "for any two components of different kinds,
kind() returns different tags" is false at the concrete pair consisting of a
`Fallback` and a `RequestHandler`: they are components of different kinds
(distinct variants), yet `UserComponent::kind` returns the same tag
(`ComponentKind::RequestHandler`) for both. -/
theorem c7_counterexample_fallback_and_request_handler_share_tag :
    (UserComponent.Fallback bpSource0).ctorIdx ≠
      (UserComponent.RequestHandler bpSource0 routerKey0).ctorIdx ∧
    (UserComponent.Fallback bpSource0).kind =
      (UserComponent.RequestHandler bpSource0 routerKey0).kind := by
  constructor
  · decide
  · rfl

/-- C7 (amended): `UserComponent::kind` separates the component variants up to
the single collision forced by the source: two components receive the same
`ComponentKind` tag if and only if they are the same variant, or both are
route terminals (`RequestHandler`/`Fallback`), which are both tagged
`ComponentKind::RequestHandler`. In particular all other pairs of distinct
kinds receive distinct tags. -/
theorem c7_kind_injective_except_fallback (c₁ c₂ : UserComponent) :
    c₁.kind = c₂.kind ↔
      (c₁.ctorIdx = c₂.ctorIdx ∨ (c₁.isRouteTerminal = true ∧ c₂.isRouteTerminal = true)) := by
  cases c₁ <;> cases c₂ <;>
    simp [UserComponent.kind, UserComponent.ctorIdx, UserComponent.isRouteTerminal]

/-- C7 witness: instantiating the amended characterization at two constructors
with different annotation ids: same variant, equal tags. -/
theorem c7_kind_injective_except_fallback_witness :
    (UserComponent.Constructor (.annotationId 0)).kind =
      (UserComponent.Constructor (.annotationId 1)).kind :=
  (c7_kind_injective_except_fallback (UserComponent.Constructor (.annotationId 0))
    (UserComponent.Constructor (.annotationId 1))).mpr (Or.inl rfl)

/-- C10: every component with no blueprint source — that is, every component
registered via a macro annotation rather than directly against the
`Blueprint` — has `scope_id()` equal to `ScopeId::ROOT`: annotated components
are implicitly registered at the root scope. -/
theorem c10_annotated_components_live_at_root (c : UserComponent)
    (h : c.bp_source = none) : c.scope_id = ScopeId.ROOT := by
  unfold UserComponent.scope_id
  rw [h]

/-- C10 witness: a constructor registered via annotation has no blueprint
source and sits at the root scope. -/
theorem c10_annotated_components_live_at_root_witness :
    (UserComponent.Constructor (.annotationId 0)).scope_id = ScopeId.ROOT :=
  c10_annotated_components_live_at_root (UserComponent.Constructor (.annotationId 0)) rfl

theorem internAll_spec (cs : List UserComponent) :
    ∀ (i₀ : Interner UserComponent) (ids₀ : List UserComponentId),
      cs.foldl internStep (i₀, ids₀) =
      (⟨i₀.items ++ cs⟩, ids₀ ++ (List.range cs.length).map (i₀.items.length + ·)) := by
  induction cs with
  | nil => intro i₀ ids₀; simp
  | cons c cs ih =>
    intro i₀ ids₀
    rw [List.foldl_cons,
      show internStep (i₀, ids₀) c = (⟨i₀.items ++ [c]⟩, ids₀ ++ [i₀.items.length]) from rfl,
      ih]
    simp only [Prod.mk.injEq]
    constructor
    · simp
    · rw [List.append_assoc]
      congr 1
      simp only [List.length_cons, List.length_append, List.length_singleton]
      rw [List.range_succ_eq_map]
      simp only [List.map_cons, List.map_map, List.singleton_append, Nat.add_zero]
      congr 1
      refine List.map_congr_left fun x _ => ?_
      simp only [Function.comp_apply, List.length_nil]
      omega

/-- C8: component interning assigns every registration its own id with no
deduplication: interning any list of `n` declared components — even when some
declarations are pairwise identical, since the statement quantifies over all
lists, duplicates included — yields `n` pairwise distinct ids (the positional
ids `0, …, n-1` in registration order), and iterating the resulting registry
yields exactly one entry per registration, in registration order. -/
theorem c8_interning_never_deduplicates (cs : List UserComponent) :
    (internAll cs).2 = List.range cs.length ∧
    (internAll cs).2.Nodup ∧
    (internAll cs).2.length = cs.length ∧
    (internAll cs).1.iterIdx.map (·.2) = cs := by
  have h := internAll_spec cs (Interner.new UserComponent) []
  have hids : (internAll cs).2 = List.range cs.length := by
    unfold internAll
    rw [h]
    simp [Interner.new]
  have hitems : (internAll cs).1.items = cs := by
    unfold internAll
    rw [h]
    simp [Interner.new]
  refine ⟨hids, ?_, ?_, ?_⟩
  · rw [hids]; exact List.nodup_range _
  · rw [hids]; simp
  · simp [Interner.iterIdx, hitems, List.enum_map_snd]

/-- C8 witness: interning two identical fallback declarations yields the two
distinct ids 0 and 1. -/
theorem c8_interning_never_deduplicates_witness :
    (internAll [UserComponent.Fallback bpSource0, UserComponent.Fallback bpSource0]).2 =
      [0, 1] :=
  (c8_interning_never_deduplicates
    [UserComponent.Fallback bpSource0, UserComponent.Fallback bpSource0]).1

theorem lookupEntry_insert_self (m : List (Nat × α)) (k : Nat) (v : α) :
    lookupEntry (insertEntry m k v) k = some v := by
  simp [insertEntry, lookupEntry]

theorem lookupEntry_insert_ne (m : List (Nat × α)) (k k' : Nat) (v : α) (h : k' ≠ k) :
    lookupEntry (insertEntry m k v) k' = lookupEntry m k' := by
  simp [insertEntry, lookupEntry, h]

theorem lookupEntry_insert_isSome (m : List (Nat × α)) (k k' : Nat) (v : α)
    (h : (lookupEntry m k').isSome = true) :
    (lookupEntry (insertEntry m k v) k').isSome = true := by
  by_cases hk : k' = k
  · subst hk; simp [lookupEntry_insert_self]
  · rwa [lookupEntry_insert_ne m k k' v hk]

theorem check_invariants_iff_required_entries (aux : AuxiliaryData) :
    aux.check_invariants = true ↔ RequiredEntriesPresent aux := by
  unfold AuxiliaryData.check_invariants RequiredEntriesPresent AuxiliaryData.iter
    Interner.iterIdx Interner.get?
  rw [List.all_eq_true]
  constructor
  · intro h id c hc
    have hm : (id, c) ∈ aux.component_interner.items.enum :=
      List.mk_mem_enum_iff_get?.mpr hc
    have hx := h (id, c) hm
    cases c <;>
      simp_all [UserComponent.isConstructible, UserComponent.isConfig,
        UserComponent.isRouteTerminal, UserComponent.isFallback]
  · intro h x hx
    obtain ⟨id, c⟩ := x
    have hc : aux.component_interner.items.get? id = some c :=
      List.mk_mem_enum_iff_get?.mp hx
    have hr := h id c hc
    cases c <;>
      simp_all [UserComponent.isConstructible, UserComponent.isConfig,
        UserComponent.isRouteTerminal, UserComponent.isFallback]

theorem Interner.get?_intern_self (i : Interner T) (t : T) :
    (i.intern t).1.get? (i.intern t).2 = some t := by
  simp [Interner.intern, Interner.get?, List.get?_concat_length]

theorem Interner.get?_intern_of_get? (i : Interner T) (t : T) (id : Nat) (c : T)
    (h : i.get? id = some c) : (i.intern t).1.get? id = some c := by
  have hlt : id < i.items.length := by
    by_contra hge
    rw [Interner.get?, List.get?_eq_none.mpr (Nat.le_of_not_lt hge)] at h
    exact Option.noConfusion h
  rw [Interner.intern, Interner.get?, List.get?_append hlt]
  exact h

theorem Interner.get?_intern_cases (i : Interner T) (t : T) (id : Nat) (c : T)
    (h : (i.intern t).1.get? id = some c) :
    i.get? id = some c ∨ (id = i.items.length ∧ c = t) := by
  rcases Nat.lt_trichotomy id i.items.length with hlt | heq | hgt
  · left
    rw [Interner.intern, Interner.get?, List.get?_append hlt] at h
    exact h
  · right
    subst heq
    rw [Interner.intern, Interner.get?, List.get?_concat_length] at h
    exact ⟨rfl, (Option.some.injEq _ _ ▸ h).symm⟩
  · exfalso
    rw [Interner.intern, Interner.get?, List.get?_eq_none.mpr (by simp; omega)] at h
    exact Option.noConfusion h

theorem sideEntries_cloning_isSome (r : BlueprintRegistration) :
    r.sideEntries.cloning.isSome = r.component.isConstructible := by
  cases r <;> rfl

theorem sideEntries_default_isSome (r : BlueprintRegistration) :
    r.sideEntries.defaultStrategy.isSome = r.component.isConfig := by
  cases r <;> rfl

theorem sideEntries_middlewares_isSome (r : BlueprintRegistration) :
    r.sideEntries.middlewares.isSome = r.component.isRouteTerminal := by
  cases r <;> rfl

theorem sideEntries_observers_isSome (r : BlueprintRegistration) :
    r.sideEntries.observers.isSome = r.component.isRouteTerminal := by
  cases r <;> rfl

theorem sideEntries_nestingPath_isSome (r : BlueprintRegistration) :
    r.sideEntries.nestingPath.isSome = r.component.isFallback := by
  cases r <;> rfl

theorem sideEntries_guard_isSome (r : BlueprintRegistration) :
    r.sideEntries.guard.isSome = r.component.isFallback := by
  cases r <;> rfl

theorem lookupEntry_insertOpt_isSome (m : List (Nat × α)) (k k' : Nat) (o : Option α)
    (h : (lookupEntry m k').isSome = true) :
    (lookupEntry (insertOpt m k o) k').isSome = true := by
  cases o with
  | none => exact h
  | some v => exact lookupEntry_insert_isSome m k k' v h

theorem lookupEntry_insertOpt_self_isSome (m : List (Nat × α)) (k : Nat) (o : Option α)
    (h : o.isSome = true) :
    (lookupEntry (insertOpt m k o) k).isSome = true := by
  cases o with
  | none => exact absurd h (by simp)
  | some v => simp [insertOpt, lookupEntry_insert_self]

theorem lookupEntry_insertOpt_ne (m : List (Nat × α)) (k k' : Nat) (o : Option α)
    (h : k' ≠ k) : lookupEntry (insertOpt m k o) k' = lookupEntry m k' := by
  cases o with
  | none => rfl
  | some v => exact lookupEntry_insert_ne m k k' v h

theorem registryWF_empty : RegistryWF AuxiliaryData.empty := by
  constructor
  · intro id c hc
    simp [AuxiliaryData.empty, Interner.new, Interner.get?] at hc
  · intro id
    simp [AuxiliaryData.empty, Interner.new, Interner.get?, lookupEntry]

theorem registryWF_register (aux : AuxiliaryData) (r : BlueprintRegistration)
    (h : RegistryWF aux) : RegistryWF (aux.register r) := by
  obtain ⟨hreq, hclone⟩ := h
  have hfresh : aux.component_interner.get? aux.component_interner.items.length = none := by
    simp [Interner.get?, List.get?_eq_none]
  have hkey : (aux.component_interner.intern r.component).2 =
      aux.component_interner.items.length := rfl
  constructor
  · intro id c hc
    simp only [AuxiliaryData.register] at hc
    rcases Interner.get?_intern_cases _ _ _ _ hc with hold | ⟨hid, hcomp⟩
    · obtain ⟨h1, h2, h3, h4, h5, h6⟩ := hreq id c hold
      refine ⟨lookupEntry_insert_isSome _ _ _ _ h1,
        lookupEntry_insert_isSome _ _ _ _ h2,
        fun hk => lookupEntry_insertOpt_isSome _ _ _ _ (h3 hk),
        fun hk => lookupEntry_insertOpt_isSome _ _ _ _ (h4 hk),
        fun hk => ⟨lookupEntry_insertOpt_isSome _ _ _ _ (h5 hk).1,
          lookupEntry_insertOpt_isSome _ _ _ _ (h5 hk).2⟩,
        fun hk => ⟨lookupEntry_insertOpt_isSome _ _ _ _ (h6 hk).1,
          lookupEntry_insertOpt_isSome _ _ _ _ (h6 hk).2⟩⟩
    · subst hid hcomp
      refine ⟨by
          show (lookupEntry (insertEntry aux.id2lifecycle
            aux.component_interner.items.length r.lifecycle)
            aux.component_interner.items.length).isSome = true
          simp [lookupEntry_insert_self],
        by
          show (lookupEntry (insertEntry aux.id2locations
            aux.component_interner.items.length r.location)
            aux.component_interner.items.length).isSome = true
          simp [lookupEntry_insert_self],
        fun hk => lookupEntry_insertOpt_self_isSome _ _ _
          (by rw [sideEntries_cloning_isSome]; exact hk),
        fun hk => lookupEntry_insertOpt_self_isSome _ _ _
          (by rw [sideEntries_default_isSome]; exact hk),
        fun hk => ⟨lookupEntry_insertOpt_self_isSome _ _ _
            (by rw [sideEntries_middlewares_isSome]; exact hk),
          lookupEntry_insertOpt_self_isSome _ _ _
            (by rw [sideEntries_observers_isSome]; exact hk)⟩,
        fun hk => ⟨lookupEntry_insertOpt_self_isSome _ _ _
            (by rw [sideEntries_nestingPath_isSome]; exact hk),
          lookupEntry_insertOpt_self_isSome _ _ _
            (by rw [sideEntries_guard_isSome]; exact hk)⟩⟩
  · intro id
    simp only [AuxiliaryData.register]
    by_cases hid : id = aux.component_interner.items.length
    · subst hid
      constructor
      · intro hs
        refine ⟨r.component, Interner.get?_intern_self _ _, ?_⟩
        by_contra hnc
        have hnone : r.sideEntries.cloning = none := by
          have := sideEntries_cloning_isSome r
          cases hcl : r.sideEntries.cloning with
          | none => rfl
          | some v =>
              rw [hcl] at this
              simp at this
              exact absurd this hnc
        rw [hnone] at hs
        have : (lookupEntry aux.id2cloning_strategy
            aux.component_interner.items.length).isSome = true := hs
        rcases (hclone _).mp this with ⟨c, hc, _⟩
        rw [hfresh] at hc
        exact Option.noConfusion hc
      · rintro ⟨c, hc, hconstr⟩
        have hcc : c = r.component := by
          have := Interner.get?_intern_self aux.component_interner r.component
          rw [Interner.intern] at this hc
          simp only [Interner.intern] at hc
          rw [this] at hc
          exact (Option.some.injEq _ _ ▸ hc).symm
        subst hcc
        apply lookupEntry_insertOpt_self_isSome
        rw [sideEntries_cloning_isSome]
        exact hconstr
    · rw [hkey, lookupEntry_insertOpt_ne _ _ _ _ hid, hclone id]
      constructor
      · rintro ⟨c, hc, hconstr⟩
        exact ⟨c, Interner.get?_intern_of_get? _ _ _ _ hc, hconstr⟩
      · rintro ⟨c, hc, hconstr⟩
        rcases Interner.get?_intern_cases _ _ _ _ hc with hold | ⟨hid', _⟩
        · exact ⟨c, hold, hconstr⟩
        · exact absurd hid' hid

theorem registryWF_processRegistrations (regs : List BlueprintRegistration) :
    RegistryWF (processRegistrations regs) := by
  unfold processRegistrations
  have hgen : ∀ (aux : AuxiliaryData), RegistryWF aux →
      RegistryWF (regs.foldl AuxiliaryData.register aux) := by
    induction regs with
    | nil => intro aux h; exact h
    | cons r rs ih =>
        intro aux h
        exact ih _ (registryWF_register aux r h)
  exact hgen _ registryWF_empty

/-- C1 (amended): the content of the consistency pass is exactly as claimed —
`check_invariants` passes if and only if every interned component has a
lifecycle and a registration location, every constructor/prebuilt/config
component has a cloning strategy, every config component has a default
strategy, every request handler and fallback has a middleware-id list and an
error-observer-id list, and every fallback has a path-prefix and domain-guard
entry — and the registration replay establishes all of these entries. However
`check_invariants` is compiled only under debug assertions and is not invoked
by `UserComponentDb::build` in the sources provided, so a build does not abort
when an entry is missing (see the counterexample). -/
theorem c1_consistency_pass_content :
    (∀ regs : List BlueprintRegistration,
      (processRegistrations regs).check_invariants = true) ∧
    (∀ aux : AuxiliaryData,
      aux.check_invariants = true ↔ RequiredEntriesPresent aux) := by
  constructor
  · intro regs
    exact (check_invariants_iff_required_entries _).mpr
      (registryWF_processRegistrations regs).1
  · exact check_invariants_iff_required_entries

/-- C1 witness: a concrete registration replay (a constructor, a config type,
a route and a fallback) on which the consistency pass succeeds. -/
theorem c1_consistency_pass_content_witness :
    (processRegistrations
      [BlueprintRegistration.constructor (.annotationId 0) .Singleton .NeverClone 0,
       BlueprintRegistration.config bpSource0 "key" .Singleton .CloneIfNecessary
         .defaultIfMissing 1,
       BlueprintRegistration.route bpSource0 routerKey0 .RequestScoped [] [] 2,
       BlueprintRegistration.fallback bpSource0 .RequestScoped [] [] none none 3
      ]).check_invariants = true :=
  c1_consistency_pass_content.1 _

/-- C1 counterexample: the claim that "the consistency pass … runs during
every build, aborting the build when any entry is missing" is false on the
code: at this concrete input the merged registration data is missing the
lifecycle, location and cloning-strategy entries for its only component
(`check_invariants` evaluates to `false`), yet `UserComponentDb::build`
completes successfully instead of aborting — the build function never invokes
the pass, which is in any case compiled only under `debug_assertions`. -/
theorem c1_counterexample_build_completes_without_pass :
    (UserComponentDb.build breakingCollaborators 0 DiagnosticSink.empty).1.isOk = true ∧
    ((breakingCollaborators.process_blueprint 0).1).check_invariants = false := by
  constructor
  · rfl
  · rfl

theorem parseFailureIds_push_parse (s : DiagnosticSink) (id : UserComponentId)
    (e : ParseError) :
    parseFailureIds (s.push (.parseFailure id e)) = parseFailureIds s ++ [id] := by
  simp [parseFailureIds, DiagnosticSink.push]

theorem parseFailureIds_push_read (s : DiagnosticSink) (loc : Location) :
    parseFailureIds (s.push (.sourceReadError loc)) = parseFailureIds s := by
  simp [parseFailureIds, DiagnosticSink.push]

theorem parseFailureIds_capture (c : BuildCollaborators) (e : ParseError)
    (id : UserComponentId) (db : AuxiliaryData) (s : DiagnosticSink) :
    parseFailureIds (capture_diagnostics c e id db s) = parseFailureIds s ++ [id] := by
  unfold capture_diagnostics DiagnosticSink.source
  cases hr : c.read_source ((lookupEntry db.id2locations id).getD 0) <;>
    simp [hr, parseFailureIds_push_parse, parseFailureIds_push_read]

theorem parseFailureIds_resolve_fold (c : BuildCollaborators) (db : AuxiliaryData)
    (l : List (UserComponentId × UserComponent)) :
    ∀ (acc : List (UserComponentId × ResolvedPath)) (sink : DiagnosticSink),
      parseFailureIds ((l.foldl (resolveStep c db) (acc, sink)).2) =
        parseFailureIds sink ++ failingIds c db l := by
  induction l with
  | nil => intro acc sink; simp [failingIds]
  | cons idc rest ih =>
      intro acc sink
      rw [List.foldl_cons]
      cases hbp : idc.2.bp_source with
      | none =>
          rw [show resolveStep c db (acc, sink) idc = (acc, sink) by
            unfold resolveStep; rw [hbp]]
          rw [ih]
          simp [failingIds, List.filterMap_cons, hbp]
      | some bps =>
          cases hp : c.parse_path
              (internedIdentifiers db bps.identifiers_id)
              (pathKindForComponent idc.2.kind) with
          | ok path =>
              rw [show resolveStep c db (acc, sink) idc = (acc ++ [(idc.1, path)], sink) by
                unfold resolveStep; rw [hbp]; simp [hp]]
              rw [ih]
              simp [failingIds, List.filterMap_cons, hbp, hp]
          | error e =>
              rw [show resolveStep c db (acc, sink) idc =
                  (acc, capture_diagnostics c e idc.1 db sink) by
                unfold resolveStep; rw [hbp]; simp [hp]]
              rw [ih, parseFailureIds_capture]
              simp [failingIds, List.filterMap_cons, hbp, hp]

theorem isEmpty_false_of_ne_nil {l : List α} (h : l ≠ []) : l.isEmpty = false := by
  cases l with
  | nil => exact absurd rfl h
  | cons a t => rfl

theorem sink_pushAll_isEmpty_false (s : DiagnosticSink) (ds : List Diagnostic)
    (h : s.diagnostics ≠ []) : (s.pushAll ds).is_empty = false := by
  apply isEmpty_false_of_ne_nil
  simp only [DiagnosticSink.pushAll]
  intro hc
  rcases List.append_eq_nil.mp hc with ⟨h1, _⟩
  exact h h1

theorem sink_ne_nil_of_parseFailureIds_ne_nil (s : DiagnosticSink)
    (h : parseFailureIds s ≠ []) : s.diagnostics ≠ [] := by
  intro hnil
  apply h
  unfold parseFailureIds
  rw [hnil]
  rfl

theorem build_error_of_parse_failures (c : BuildCollaborators) (bp : Blueprint)
    (sink₀ : DiagnosticSink)
    (h : failingIds c (c.process_blueprint bp).1 ((c.process_blueprint bp).1).iter ≠ []) :
    (UserComponentDb.build c bp sink₀).1 = .error () := by
  have hne : ((resolve_raw_identifiers c (c.process_blueprint bp).1
      (sink₀.pushAll (c.process_blueprint bp).2.2)).2).diagnostics ≠ [] := by
    apply sink_ne_nil_of_parseFailureIds_ne_nil
    rw [show (resolve_raw_identifiers c (c.process_blueprint bp).1
        (sink₀.pushAll (c.process_blueprint bp).2.2)).2 =
        (((c.process_blueprint bp).1).iter.foldl
          (resolveStep c (c.process_blueprint bp).1)
          ([], sink₀.pushAll (c.process_blueprint bp).2.2)).2 from rfl]
    rw [parseFailureIds_resolve_fold]
    intro hc
    rcases List.append_eq_nil.mp hc with ⟨_, h2⟩
    exact h h2
  simp only [UserComponentDb.build]
  split
  · rfl
  · rw [if_neg]
    rw [sink_pushAll_isEmpty_false _ _ hne]
    simp

/-- C2: failure isolation in `resolve_raw_identifiers` and the failure outcome
of `build`. First, one resolution pass pushes exactly one parse-failure
diagnostic for every registered component whose identifier path is invalid —
the sink ends with the parse-failure ids of all failing components appended,
in order, to whatever it already contained, so processing continues past each
failure and every invalid identifier path yields its own diagnostic in one
pass. Second, whenever at least one component fails to parse, the build as a
whole returns the failure outcome `Err(())`. -/
theorem c2_all_parse_errors_reported_and_build_fails (c : BuildCollaborators)
    (bp : Blueprint) (db : AuxiliaryData) (sink : DiagnosticSink) :
    (parseFailureIds ((resolve_raw_identifiers c db sink).2) =
      parseFailureIds sink ++ failingIds c db db.iter) ∧
    (failingIds c (c.process_blueprint bp).1 ((c.process_blueprint bp).1).iter ≠ [] →
      (UserComponentDb.build c bp sink).1 = .error ()) := by
  constructor
  · exact parseFailureIds_resolve_fold c db db.iter [] sink
  · exact build_error_of_parse_failures c bp sink

/-- C2 witness: with two invalid identifier paths, a single resolution pass
over an empty sink yields one diagnostic per failing component (ids 0 and 1),
and the build returns the failure outcome. -/
theorem c2_all_parse_errors_reported_and_build_fails_witness :
    parseFailureIds ((resolve_raw_identifiers c2collabs
      (processRegistrations c2regs) DiagnosticSink.empty).2) = [0, 1] ∧
    (UserComponentDb.build c2collabs 0 DiagnosticSink.empty).1 = .error () := by
  have h := c2_all_parse_errors_reported_and_build_fails c2collabs 0
    (processRegistrations c2regs) DiagnosticSink.empty
  constructor
  · rw [h.1]
    decide
  · exact h.2 (by decide)

/-- C6: `UserComponentDb::build` is a deterministic function of its inputs —
two runs on the same blueprint, the same collaborator databases and the same
starting sink that both succeed return the same router and component
databases that agree on every retained piece of state: the interned
components with their id assignment, the location, lifecycle, cloning and
middleware/error-observer maps, and the final diagnostics. -/
theorem c6_build_deterministic (c : BuildCollaborators) (bp : Blueprint)
    (sink : DiagnosticSink) (router₁ router₂ : RouterTok)
    (db₁ db₂ : UserComponentDb) (s₁ s₂ : DiagnosticSink)
    (h₁ : UserComponentDb.build c bp sink = (.ok (router₁, db₁), s₁))
    (h₂ : UserComponentDb.build c bp sink = (.ok (router₂, db₂), s₂)) :
    router₁ = router₂ ∧ db₁ = db₂ ∧ s₁ = s₂ ∧
    db₁.iter = db₂.iter ∧
    db₁.id2locations = db₂.id2locations ∧
    db₁.id2lifecycle = db₂.id2lifecycle ∧
    db₁.id2cloning_strategy = db₂.id2cloning_strategy ∧
    db₁.handler_id2middleware_ids = db₂.handler_id2middleware_ids ∧
    db₁.handler_id2error_observer_ids = db₂.handler_id2error_observer_ids := by
  rw [h₁] at h₂
  simp only [Prod.mk.injEq, Except.ok.injEq] at h₂
  obtain ⟨⟨hr, hdb⟩, hs⟩ := h₂
  subst hr hdb hs
  exact ⟨rfl, rfl, rfl, rfl, rfl, rfl, rfl, rfl, rfl⟩

/-- C6 witness: running the build twice on the same concrete inputs yields
equal routers and equal databases. -/
theorem c6_build_deterministic_witness :
    okDb = okDb ∧ okDb.id2cloning_strategy = okDb.id2cloning_strategy :=
  have h := c6_build_deterministic okCollaborators 0 DiagnosticSink.empty
    okRouter okRouter okDb okDb okSink okSink rfl rfl
  ⟨h.2.1, h.2.2.2.2.2.2.1⟩

/-- C9: in a database built from a registration replay, `get_cloning_strategy`
returns `Some` exactly for the ids whose component is a `Constructor`, a
`PrebuiltType` (prebuilt value) or a `ConfigType` (config value), and `None`
for every other component kind (and for unassigned ids). -/
theorem c9_cloning_strategy_exactly_for_constructibles
    (regs : List BlueprintRegistration) (c : BuildCollaborators) (bp : Blueprint)
    (sink sink' : DiagnosticSink) (router : RouterTok) (db : UserComponentDb)
    (hbp : (c.process_blueprint bp).1 = processRegistrations regs)
    (hok : UserComponentDb.build c bp sink = (.ok (router, db), sink'))
    (id : UserComponentId) :
    (db.get_cloning_strategy id).isSome = true ↔
      ∃ comp, db.component_interner.get? id = some comp ∧
        comp.isConstructible = true := by
  have hwf := registryWF_processRegistrations regs
  simp only [UserComponentDb.build] at hok
  rw [hbp] at hok
  split at hok
  · exact absurd (congrArg Prod.fst hok) (by simp)
  · split at hok
    · split at hok
      · split at hok
        · simp only [Prod.mk.injEq, Except.ok.injEq] at hok
          obtain ⟨⟨_, hdb⟩, _⟩ := hok
          subst hdb
          exact hwf.2 id
        · exact absurd (congrArg Prod.fst hok) (by simp)
      · exact absurd (congrArg Prod.fst hok) (by simp)
    · exact absurd (congrArg Prod.fst hok) (by simp)

/-- C9 witness: in the concrete witness build, id 0 (a constructor) has a
cloning strategy. -/
theorem c9_cloning_strategy_exactly_for_constructibles_witness :
    (okDb.get_cloning_strategy 0).isSome = true :=
  (c9_cloning_strategy_exactly_for_constructibles okRegs okCollaborators 0
      DiagnosticSink.empty okSink okRouter okDb rfl rfl 0).mpr
    ⟨UserComponent.Constructor (.annotationId 0), by decide, by decide⟩

/-- C4: for every request whose path matches the registered route `/home` but
whose method is not among the methods registered for it, the generated router
dispatches to the fallback with an `AllowedMethods` value containing exactly
the methods registered for that path — here `{GET}`, since only `GET` is
registered on `/home`. -/
theorem c4_method_not_allowed_carries_registered_methods (m : Method)
    (hm : m ≠ .GET) :
    Router.route ⟨m, "/home"⟩ = .route1 (registeredMethods "/home") ∧
    registeredMethods "/home" = [.GET] := by
  constructor
  · cases m <;> first
      | exact absurd rfl hm
      | rfl
  · rfl

/-- C4 witness: `DELETE /home` resolves to the fallback carrying `{GET}`. -/
theorem c4_method_not_allowed_carries_registered_methods_witness :
    Router.route ⟨Method.DELETE, "/home"⟩ = .route1 [Method.GET] :=
  (c4_method_not_allowed_carries_registered_methods Method.DELETE
    (by decide)).1

/-- C3: in the generated request-handling code, when the fallible component
fails, the registered error handler produces the response, the registered
error observer is invoked on the effect state (side effects only), and no
observer invocation changes the response value that leaves the pipeline: the
response is the error handler's response regardless of which observer function
is installed. -/
theorem c3_error_handler_first_observers_side_effect_only {σ : Type}
    (env : Route0Env σ) (v0 : AppA) (s : σ) (e : BErr)
    (herr : env.b v0 = .error e) :
    (route_0.handler env v0 s).1 = env.into_response_eh (env.error_handler v0 e) ∧
    (route_0.handler env v0 s).2 = env.error_observer v0 (PavexError.new e) s ∧
    (∀ obs' : AppA → PavexError → σ → σ,
      (route_0.handler { env with error_observer := obs' } v0 s).1 =
        (route_0.handler env v0 s).1) := by
  refine ⟨?_, ?_, ?_⟩
  · simp [route_0.handler, herr]
  · simp [route_0.handler, herr]
  · intro obs'
    simp [route_0.handler, herr]

/-- C3 witness: at the concrete environment, the response is the error
handler's response (`7 + 5 = 12`) and the observer has logged the error. -/
theorem c3_error_handler_first_observers_side_effect_only_witness :
    (route_0.handler c3env 7 []).1 = 12 ∧
    (route_0.handler c3env 7 []).2 = [5] := by
  have h := c3_error_handler_first_observers_side_effect_only c3env 7 [] 5 rfl
  exact ⟨h.1, h.2.1⟩

/-- C5: the generated application-state code defines the
`ApplicationStateError` enum exactly when at least one fallible singleton
error variant exists — with exactly one variant per error type, in order —
omits it entirely otherwise, gives `build_application_state` the
`Result<ApplicationState, ApplicationStateError>` return type exactly when at
least one fallible singleton exists, and (in the generated instance) any
singleton constructor failure makes `build_application_state` return `Err`
with the matching variant. -/
theorem c5_application_state_error_spans_fallible_singletons
    (ets : List (String × ResolvedTypeTok)) :
    ((define_application_state_error ets).isSome = true ↔ ets ≠ []) ∧
    (∀ en, define_application_state_error ets = some en →
      en.variants.length = ets.length ∧
      en.variants.map (fun v => (v.name, v.ty)) = ets) ∧
    (get_application_state_init_output ets = .resultStateOrError ↔ ets ≠ []) ∧
    (∀ e, build_application_state (.error e) = .error (.A e)) ∧
    (∀ v, build_application_state (.ok v) = .ok ⟨v⟩) := by
  refine ⟨?_, ?_, ?_, fun _ => rfl, fun _ => rfl⟩
  · by_cases h : ets = [] <;>
      simp [define_application_state_error, h]
  · intro en hen
    by_cases h : ets = []
    · simp [define_application_state_error, h] at hen
    · simp [define_application_state_error, h] at hen
      subst hen
      simp only [ItemEnum.mk.injEq, List.map_map]
      constructor
      · simp
      · rw [show ((fun v : EnumVariant => (v.name, v.ty)) ∘
            fun nt : String × ResolvedTypeTok => EnumVariant.mk nt.1 nt.2) =
            id from funext fun nt => rfl]
        exact List.map_id ets
  · by_cases h : ets = [] <;>
      simp [get_application_state_init_output, h]

/-- C5 witness: with the single error variant of the generated app, the enum
is defined with one variant, the init function returns the `Result` type, and
a constructor failure surfaces as `Err(ApplicationStateError::A(..))`. -/
theorem c5_application_state_error_spans_fallible_singletons_witness :
    define_application_state_error [("A", 0)] = some ⟨[⟨"A", 0⟩]⟩ ∧
    get_application_state_init_output [("A", 0)] = .resultStateOrError ∧
    build_application_state (.error 7) = .error (.A 7) := by
  have h := c5_application_state_error_spans_fallible_singletons [("A", 0)]
  refine ⟨by decide, h.2.2.1.mpr (by decide), h.2.2.2.1 7⟩
